import Mathlib

/-!
Shallow embedding of the Immanuel MCP server core: coordinate parsing,
angular-aspect detection, compatibility and dignity scoring, and the
tool/resource dispatch handlers.  Python floats are modelled as exact
rationals, Python strings as Lean strings over their character lists, and
exceptions as explicit `Except` error values.  ASCII character classes
(`str.lower`, `str.strip`, digit tests) are modelled explicitly so that
their behaviour is under the control of the development.
-/

namespace Immanuel

/-- Single-quote character (ASCII 39) as a string, used by Python
f-strings in the error messages of `app/utils/exceptions.py`. -/
def squote : String := String.singleton (Char.ofNat 39)

/-- ASCII digit test: the regex class `\d` on the inputs of interest. -/
def pyIsDigit (c : Char) : Bool := 48 ≤ c.toNat && c.toNat ≤ 57

/-- Whitespace test for Python `str.strip` (ASCII whitespace; the
coordinate inputs of interest contain no exotic Unicode whitespace). -/
def pyIsSpace (c : Char) : Bool := c.toNat = 32 || (9 ≤ c.toNat && c.toNat ≤ 13)

/-- Python `str.lower` on one character (ASCII range). -/
def pyLowerChar (c : Char) : Char :=
  if 65 ≤ c.toNat && c.toNat ≤ 90 then Char.ofNat (c.toNat + 32) else c

/-- Python `str.lower` on a character list. -/
def pyLower (cs : List Char) : List Char := cs.map pyLowerChar

/-- Python `str.strip`: drop whitespace from both ends. -/
def pyStrip (cs : List Char) : List Char :=
  ((cs.dropWhile pyIsSpace).reverse.dropWhile pyIsSpace).reverse

/-- Numeric value of a digit group, as Python `float` reads it. -/
def digitsValN (ds : List Char) : Nat :=
  ds.foldl (fun a c => 10 * a + (c.toNat - 48)) 0

/-- Digit-group value as a rational. -/
def digitsValQ (ds : List Char) : ℚ := (digitsValN ds : ℚ)

/-- Full match of the regex `(\d+)([nswe])(\d+)` used by
`parse_coordinate`: a leading digit group, one lowercase direction
letter, and a trailing digit group reaching the end of the string. -/
def matchDMS (cs : List Char) : Option (List Char × Char × List Char) :=
  let (d1, rest) := cs.span pyIsDigit
  if d1.isEmpty then none
  else
    match rest with
    | [] => none
    | c :: rest2 =>
      if c = 'n' || c = 's' || c = 'w' || c = 'e' then
        let (d2, rest3) := rest2.span pyIsDigit
        if d2.isEmpty then none
        else if rest3.isEmpty then some (d1, c, d2) else none
      else none

/-- Consume a Python digit group allowing single underscores between
digits; returns the digits read (underscores dropped) and the unconsumed
remainder.  A misplaced underscore is left in the remainder, which makes
the surrounding full-string parse fail, as CPython does. -/
def takeDigitsU : List Char → List Char × List Char
  | [] => ([], [])
  | c :: rest =>
    if pyIsDigit c then
      match rest with
      | '_' :: d :: rest2 =>
        if pyIsDigit d then
          let (ds, r) := takeDigitsU (d :: rest2)
          (c :: ds, r)
        else (c :: [], '_' :: d :: rest2)
      | r =>
        let (ds, r2) := takeDigitsU r
        (c :: ds, r2)
    else ([], c :: rest)

/-- The value of a Python float: a finite value (modelled as an exact
rational), a signed infinity, or a NaN.  The sign of a NaN is not
observable in the modelled code, so `nan` carries none. -/
inductive PyFloat where
  | finite (q : ℚ)
  | inf (negative : Bool)
  | nan
deriving DecidableEq, Repr

/-- Python `float(s)` on an already stripped and lowercased string:
optional sign, then either one of the non-finite literals `inf`,
`infinity`, `nan` (the call site lowercases, so only the lowercase
spellings occur) or a decimal literal — digit groups with underscore
separators, optional fraction, optional exponent. -/
def pyFloatOfChars (cs : List Char) : Option PyFloat :=
  let sgncs : Bool × List Char :=
    match cs with
    | '+' :: r => (false, r)
    | '-' :: r => (true, r)
    | r => (false, r)
  let neg := sgncs.1
  let sgn : ℚ := if neg then -1 else 1
  match sgncs.2 with
  | ['i', 'n', 'f'] => some (.inf neg)
  | ['i', 'n', 'f', 'i', 'n', 'i', 't', 'y'] => some (.inf neg)
  | ['n', 'a', 'n'] => some .nan
  | rest =>
    let (ip, r1) := takeDigitsU rest
    let fpr : List Char × List Char :=
      match r1 with
      | '.' :: r => takeDigitsU r
      | r => ([], r)
    let fp := fpr.1
    let r2 := fpr.2
    if ip.isEmpty && fp.isEmpty then none
    else
      let mant : ℚ := digitsValQ ip + digitsValQ fp / (10 : ℚ) ^ fp.length
      match r2 with
      | [] => some (.finite (sgn * mant))
      | 'e' :: r3 =>
        let esgncs : Int × List Char :=
          match r3 with
          | '+' :: r => (1, r)
          | '-' :: r => (-1, r)
          | r => (1, r)
        let (ed, r5) := takeDigitsU esgncs.2
        if ed.isEmpty then none
        else if r5.isEmpty then
          some (.finite (sgn * mant * (10 : ℚ) ^ (esgncs.1 * (digitsValN ed : Int))))
        else none
      | _ => none

/-- A coordinate argument, Python `Union[str, float]`. -/
inductive Coord where
  | num (q : ℚ)
  | str (s : String)
deriving DecidableEq, Repr

/-- The application exceptions of `app/utils/exceptions.py` that the
modelled handlers raise and catch. -/
inductive Exc where
  | toolNotFound (toolName : String)
  | resourceNotFound (uri : String)
  | validationError (message : String)
  | otherError (message : String)
deriving DecidableEq, Repr

/-- Python `str(e)` for each modelled exception: `ToolNotFoundError` and
`ResourceNotFoundError` build fixed messages naming the missing item,
the others carry their message verbatim. -/
def Exc.msg : Exc → String
  | .toolNotFound n => "Tool " ++ squote ++ n ++ squote ++ " not found"
  | .resourceNotFound u => "Resource " ++ squote ++ u ++ squote ++ " not found"
  | .validationError m => m
  | .otherError m => m

/-- Inner `parse_coordinate` of `ChartService._convert_coordinates`:
numbers pass through; strings are stripped and lowercased, then matched
against the regex `(\d+)([nswe])(\d+)` (degrees + minutes/60, negated
for south and west), then against a bare float literal; anything else
raises `ValidationError`. -/
def parse_coordinate : Coord → Except Exc PyFloat
  | .num q => .ok (.finite q)
  | .str s =>
    let cs := pyLower (pyStrip s.toList)
    match matchDMS cs with
    | some (dg, dir, mn) =>
      let value : ℚ := digitsValQ dg + digitsValQ mn / 60
      .ok (.finite (if dir = 's' || dir = 'w' then -value else value))
    | none =>
      match pyFloatOfChars cs with
      | some f => .ok f
      | none => .error (.validationError ("Invalid coordinate format: " ++ s))

/-- The `PlanetPosition` model of `app/models/astrology.py` (the
`dignities` payload is unused by the embedded functions). -/
structure PlanetPosition where
  name : String
  longitude : ℚ
  latitude : ℚ
  distance : ℚ
  speed : ℚ
  sign : String
  house : Option Int := none
deriving DecidableEq, Repr

/-- The `Aspect` model of `app/models/astrology.py` (the optional
`interpretation` field is never set by `_calculate_aspect`). -/
structure Aspect where
  planet1 : String
  planet2 : String
  aspect_type : String
  orb : ℚ
  exact_orb : ℚ
  applying : Bool
  separating : Bool
deriving DecidableEq, Repr

/-- Python `orbs.get(aspect_name, 8.0)` over a dict modelled as an
association list. -/
def orbGet (orbs : List (String × ℚ)) (aname : String) : ℚ :=
  match orbs.lookup aname with
  | some v => v
  | none => 8

/-- The `aspects_to_check` table of `_calculate_aspect`, in source
order. -/
def aspectsToCheck : List (ℚ × String) :=
  [(0, "conjunction"), (60, "sextile"), (90, "square"), (120, "trine"), (180, "opposition")]

/-- The separation computed by `_calculate_aspect`:
`diff = abs(lon1 - lon2); if diff > 180: diff = 360 - diff`. -/
def sepDiff (lon1 lon2 : ℚ) : ℚ :=
  let diff := |lon1 - lon2|
  if diff > 180 then 360 - diff else diff

/-- The scanning loop of `_calculate_aspect`: return an `Aspect` for the
first table entry whose deviation is within its orb. -/
def findAspect (p1 p2 : PlanetPosition) (orbs : List (String × ℚ)) (diff : ℚ) :
    List (ℚ × String) → Option Aspect
  | [] => none
  | (degrees, aname) :: rest =>
    if |diff - degrees| ≤ orbGet orbs aname then
      some { planet1 := p1.name, planet2 := p2.name, aspect_type := aname,
             orb := |diff - degrees|, exact_orb := degrees,
             applying := decide (p2.speed < p1.speed),
             separating := decide (p1.speed < p2.speed) }
    else findAspect p1 p2 orbs diff rest

/-- `ChartService._calculate_aspect`. -/
def calculate_aspect (p1 p2 : PlanetPosition) (orbs : List (String × ℚ)) : Option Aspect :=
  findAspect p1 p2 orbs (sepDiff p1.longitude p2.longitude) aspectsToCheck

/-- The harmonious aspect-type list of
`_calculate_compatibility_score`. -/
def harmonious : List String := ["trine", "sextile", "conjunction"]

/-- The challenging aspect-type list of
`_calculate_compatibility_score`. -/
def challenging : List String := ["square", "opposition"]

/-- `ChartService._calculate_compatibility_score`: early 0 on the empty
list, then `max(0, min(100, (raw + 1) * 50))` with
`raw = (positive - negative) / total`. -/
def compatibility_score (aspects : List Aspect) : ℚ :=
  if aspects.isEmpty then 0
  else
    let positive : ℕ := (aspects.filter (fun a => harmonious.contains a.aspect_type)).length
    let negative : ℕ := (aspects.filter (fun a => challenging.contains a.aspect_type)).length
    let total : ℕ := aspects.length
    if total = 0 then 0
    else
      let raw : ℚ := ((positive : ℚ) - (negative : ℚ)) / (total : ℚ)
      max 0 (min 100 ((raw + 1) * 50))

/-- Modelled from the spec: `clamp((raw + 1) × 50, 0, 100)` with
`raw = (countHarmonious − countChallenging) / totalAspects` and `raw = 0`
when `totalAspects = 0`.  Kept separate from `compatibility_score` (which
is translated from the code) so the two can be compared. -/
def specCompatibilityFormula (aspects : List Aspect) : ℚ :=
  let countHarmonious : ℕ := (aspects.filter (fun a => harmonious.contains a.aspect_type)).length
  let countChallenging : ℕ := (aspects.filter (fun a => challenging.contains a.aspect_type)).length
  let total : ℕ := aspects.length
  let raw : ℚ := if total = 0 then 0 else ((countHarmonious : ℚ) - (countChallenging : ℚ)) / (total : ℚ)
  max 0 (min 100 ((raw + 1) * 50))

/-- The static `dignity_map` of `_calculate_planet_dignity`. -/
def dignity_map : List (String × List (String × Int)) :=
  [("sun", [("leo", 5), ("aries", 4)]),
   ("moon", [("cancer", 5), ("taurus", 4)]),
   ("mercury", [("gemini", 5), ("virgo", 5)]),
   ("venus", [("taurus", 5), ("libra", 5)]),
   ("mars", [("aries", 5), ("scorpio", 5)]),
   ("jupiter", [("sagittarius", 5), ("pisces", 5)]),
   ("saturn", [("capricorn", 5), ("aquarius", 5)])]

/-- The `DignityScore` model of `app/models/astrology.py` with its
default field values. -/
structure DignityScore where
  planet : String
  sign : String
  house : Int
  ruler : Int := 0
  exalted : Int := 0
  triplicity : Int := 0
  term : Int := 0
  face : Int := 0
  detriment : Int := 0
  fall : Int := 0
  total_score : Int := 0
deriving DecidableEq, Repr

/-- Python `str.lower` on a string. -/
def pyLowerStr (s : String) : String := String.mk (pyLower s.toList)

/-- Python `planet.house or 1`: `None` and the falsy house number `0`
both give 1. -/
def houseOrOne : Option Int → Int
  | none => 1
  | some h => if h = 0 then 1 else h

/-- `ChartService._calculate_planet_dignity`. -/
def calculate_planet_dignity (planet : PlanetPosition) : DignityScore :=
  let planet_dignities : List (String × Int) :=
    (dignity_map.lookup (pyLowerStr planet.name)).getD []
  let sign_score : Int := (planet_dignities.lookup (pyLowerStr planet.sign)).getD 0
  { planet := planet.name
    sign := planet.sign
    house := houseOrOne planet.house
    ruler := if sign_score = 5 then sign_score else 0
    exalted := if sign_score = 4 then 4 else 0
    total_score := sign_score }

/-- Python values passed through the MCP layer (tool arguments,
resource contents): strings, numbers, booleans, `None`, lists and
string-keyed dicts. -/
inductive PyVal where
  | str (s : String)
  | int (n : Int)
  | float (q : ℚ)
  | bool (b : Bool)
  | pynone
  | list (xs : List PyVal)
  | dict (xs : List (String × PyVal))
deriving Repr

/-- Build a PyVal list of strings (keyword lists in resource data). -/
def strs (l : List String) : PyVal := .list (l.map .str)

/-- Python `repr` of a string: single quotes, or double quotes when the
string itself contains a single quote (no string in the modelled data
contains both kinds of quote or needs escaping). -/
def pyReprStr (s : String) : String :=
  if s.toList.contains (Char.ofNat 39) then "\"" ++ s ++ "\"" else squote ++ s ++ squote

/-- Python `repr` of a float.  Every float in the modelled data is
integral, printed as `<int>.0`. -/
def pyReprFloat (q : ℚ) : String :=
  if q.den = 1 then toString q.num ++ ".0" else toString q.num ++ "/" ++ toString q.den

mutual

/-- Python `str(value)` as used by `read_resource` on resource content
(for containers this is `repr`). -/
def pyStr : PyVal → String
  | .str s => pyReprStr s
  | .int n => toString n
  | .float q => pyReprFloat q
  | .bool b => if b then "True" else "False"
  | .pynone => "None"
  | .list xs => "[" ++ pyStrItems xs ++ "]"
  | .dict xs => "\x7b" ++ pyStrPairs xs ++ "\x7d"

/-- Comma-joined rendering of list items. -/
def pyStrItems : List PyVal → String
  | [] => ""
  | [x] => pyStr x
  | x :: y :: rest => pyStr x ++ ", " ++ pyStrItems (y :: rest)

/-- Comma-joined rendering of dict entries. -/
def pyStrPairs : List (String × PyVal) → String
  | [] => ""
  | [(k, v)] => pyReprStr k ++ ": " ++ pyStr v
  | (k, v) :: p :: rest => pyReprStr k ++ ": " ++ pyStr v ++ ", " ++ pyStrPairs (p :: rest)

end

/-- The dangerous characters stripped by
`ValidationService.sanitize_input`: `<`, `>`, `&`, the two quote kinds,
the backquote and NUL. -/
def dangerousChars : List Char :=
  ['<', '>', '&', '"', Char.ofNat 39, Char.ofNat 96, Char.ofNat 0]

/-- String branch of `sanitize_input`: remove dangerous characters,
reject results longer than 1000 characters, strip whitespace. -/
def sanitizeStr (s : String) : Except Exc String :=
  let v := s.toList.filter (fun c => !(dangerousChars.contains c))
  if 1000 < v.length then
    .error (.validationError "Input string too long (max 1000 characters)")
  else .ok (String.mk (pyStrip v))

mutual

/-- `ValidationService.sanitize_input`: recursively sanitize strings in
dicts and lists, pass other values through. -/
def sanitize_input : PyVal → Except Exc PyVal
  | .str s =>
    match sanitizeStr s with
    | .ok v => .ok (.str v)
    | .error e => .error e
  | .dict xs =>
    match sanitizePairs xs with
    | .ok v => .ok (.dict v)
    | .error e => .error e
  | .list xs =>
    match sanitizeItems xs with
    | .ok v => .ok (.list v)
    | .error e => .error e
  | v => .ok v

/-- Sanitize the items of a list. -/
def sanitizeItems : List PyVal → Except Exc (List PyVal)
  | [] => .ok []
  | x :: rest =>
    match sanitize_input x with
    | .error e => .error e
    | .ok x2 =>
      match sanitizeItems rest with
      | .error e => .error e
      | .ok r2 => .ok (x2 :: r2)

/-- Sanitize the values of a dict (keys are left unchanged, as in the
source comprehension). -/
def sanitizePairs : List (String × PyVal) → Except Exc (List (String × PyVal))
  | [] => .ok []
  | (k, v) :: rest =>
    match sanitize_input v with
    | .error e => .error e
    | .ok v2 =>
      match sanitizePairs rest with
      | .error e => .error e
      | .ok r2 => .ok ((k, v2) :: r2)

end

/-- One entry of a tool result `content` list. -/
structure ContentItem where
  type : String
  text : String
  data : Option PyVal := none

/-- The MCP `ToolResult` model. -/
structure ToolResult where
  content : List ContentItem
  isError : Bool

/-- The MCP `ToolCallResponse` model. -/
structure ToolCallResponse where
  result : ToolResult

/-- A FastAPI `HTTPException`, the transport-level error of the route
handlers. -/
structure HTTPException where
  status_code : Nat
  detail : String

/-- One entry of a `resources/read` response. -/
structure ResourceContent where
  uri : String
  mimeType : String
  text : String

/-- The MCP `ResourceReadResponse` model. -/
structure ResourceReadResponse where
  contents : List ResourceContent

/-- The tool names registered by `MCPService._setup_tools`, in
declaration order. -/
def toolNames : List String :=
  ["generate_natal_chart", "generate_progressed_chart", "generate_solar_return",
   "generate_composite_chart", "calculate_synastry", "get_transits",
   "interpret_aspects", "calculate_dignities"]

/-- `MCPService.get_tool`: raise `ToolNotFoundError` when the name is
not registered, otherwise return the registered descriptor (modelled by
its name; the schema payload is not consulted by the handler). -/
def get_tool (name : String) : Except Exc String :=
  if toolNames.contains name then .ok name else .error (.toolNotFound name)

/-- The keys of the `tool_executors` dict of `execute_tool` in
`app/routes/mcp.py`. -/
def executorNames : List String :=
  ["generate_natal_chart", "generate_progressed_chart", "generate_solar_return",
   "generate_composite_chart", "calculate_synastry", "get_transits",
   "interpret_aspects", "calculate_dignities"]

/-- `execute_tool` of `app/routes/mcp.py`: look up the executor bound to
the name and run it; raise `ToolNotFoundError` when absent.  The
executor bodies call the chart service and the external ephemeris
library, so they are a parameter `impl` of the model. -/
def execute_tool (impl : String → PyVal → Except Exc PyVal)
    (name : String) (args : PyVal) : Except Exc PyVal :=
  if executorNames.contains name then impl name args
  else .error (.toolNotFound name)

/-- The body of the `try` block of the `call_tool` route handler:
tool lookup, argument sanitization, tool-specific argument validation
(`validate` abstracts `validate_mcp_tool_arguments`), then execution. -/
def call_tool_pipeline (validate : String → PyVal → Except Exc Unit)
    (impl : String → PyVal → Except Exc PyVal)
    (name : String) (args : PyVal) : Except Exc PyVal := do
  let _ ← get_tool name
  let sargs ← sanitize_input args
  let _ ← validate name sargs
  execute_tool impl name sargs

/-- The `call_tool` route handler of `app/routes/mcp.py`.  Success wraps
the data in an `isError:false` result; every raised exception — the
`(ToolNotFoundError, ValidationError)` clause and the catch-all clause
build the same payload — becomes an in-band `isError:true` result, never
an `HTTPException`. -/
def call_tool (validate : String → PyVal → Except Exc Unit)
    (impl : String → PyVal → Except Exc PyVal)
    (name : String) (args : PyVal) : Except HTTPException ToolCallResponse :=
  match call_tool_pipeline validate impl name args with
  | .ok data =>
    .ok ⟨⟨[{ type := "text",
             text := "Tool " ++ squote ++ name ++ squote ++ " executed successfully",
             data := some data }], false⟩⟩
  | .error e =>
    .ok ⟨⟨[{ type := "text", text := "Tool execution failed: " ++ e.msg }], true⟩⟩

/-- `HOUSE_SYSTEMS` from `app/config.py`. -/
def HOUSE_SYSTEMS : List String :=
  ["placidus", "koch", "porphyrius", "regiomontanus", "campanus",
   "equal", "whole_sign", "alcabitus", "krusinski", "morinus"]

/-- `ASPECT_ORBS` from `app/config.py`. -/
def ASPECT_ORBS : List (String × ℚ) :=
  [("conjunction", 8), ("opposition", 8), ("trine", 8), ("square", 8),
   ("sextile", 6), ("quincunx", 3), ("semisextile", 3), ("semisquare", 2),
   ("sesquisquare", 2), ("quintile", 2), ("biquintile", 2)]

/-- Python `ASPECT_ORBS[key]` (every key used is present). -/
def aspectOrb (key : String) : ℚ := (ASPECT_ORBS.lookup key).getD 0

/-- The resource URIs registered by `MCPService._setup_resources`, in
declaration order. -/
def resourceUris : List String :=
  ["astrological_objects", "house_systems", "aspect_patterns",
   "sign_meanings", "planet_meanings", "house_meanings"]

/-- `MCPService._get_astrological_objects_content`. -/
def astrological_objects_content : PyVal :=
  .dict
    [("planets", strs ["sun", "moon", "mercury", "venus", "mars", "jupiter",
                       "saturn", "uranus", "neptune", "pluto"]),
     ("asteroids", strs ["chiron", "ceres", "pallas", "juno", "vesta"]),
     ("points", strs ["north_node", "south_node", "lilith", "part_of_fortune", "vertex"]),
     ("luminaries", strs ["sun", "moon"]),
     ("personal_planets", strs ["sun", "moon", "mercury", "venus", "mars"]),
     ("social_planets", strs ["jupiter", "saturn"]),
     ("outer_planets", strs ["uranus", "neptune", "pluto"])]

/-- `MCPService._get_house_systems_content`. -/
def house_systems_content : PyVal :=
  .dict
    [("systems", strs HOUSE_SYSTEMS),
     ("descriptions", .dict
       [("placidus", .str "Most popular system, uses time-based division"),
        ("koch", .str "Birthplace system, focuses on birthplace coordinates"),
        ("equal", .str "Equal 30-degree houses from Ascendant"),
        ("whole_sign", .str "Entire signs as houses, ancient system")])]

/-- One major/minor aspect entry of the aspect-patterns content. -/
def aspectEntry (degrees : Int) (orbKey : String) (nature : String) : PyVal :=
  .dict [("degrees", .int degrees), ("orb", .float (aspectOrb orbKey)),
         ("nature", .str nature)]

/-- `MCPService._get_aspect_patterns_content`. -/
def aspect_patterns_content : PyVal :=
  .dict
    [("major_aspects", .dict
       [("conjunction", aspectEntry 0 "conjunction" "neutral"),
        ("opposition", aspectEntry 180 "opposition" "challenging"),
        ("trine", aspectEntry 120 "trine" "harmonious"),
        ("square", aspectEntry 90 "square" "challenging"),
        ("sextile", aspectEntry 60 "sextile" "harmonious")]),
     ("minor_aspects", .dict
       [("quincunx", aspectEntry 150 "quincunx" "challenging"),
        ("semisextile", aspectEntry 30 "semisextile" "neutral")])]

/-- One sign entry of the sign-meanings content. -/
def signEntry (element modality ruler : String) (keywords : List String) : PyVal :=
  .dict [("element", .str element), ("modality", .str modality),
         ("ruler", .str ruler), ("keywords", strs keywords)]

/-- `MCPService._get_sign_meanings_content`. -/
def sign_meanings_content : PyVal :=
  .dict
    [("signs", .dict
      [("aries", signEntry "fire" "cardinal" "mars" ["initiative", "courage", "leadership"]),
       ("taurus", signEntry "earth" "fixed" "venus" ["stability", "luxury", "persistence"]),
       ("gemini", signEntry "air" "mutable" "mercury" ["communication", "curiosity", "versatility"]),
       ("cancer", signEntry "water" "cardinal" "moon" ["nurturing", "intuition", "family"]),
       ("leo", signEntry "fire" "fixed" "sun" ["creativity", "leadership", "drama"]),
       ("virgo", signEntry "earth" "mutable" "mercury" ["service", "analysis", "perfectionism"]),
       ("libra", signEntry "air" "cardinal" "venus" ["balance", "harmony", "relationships"]),
       ("scorpio", signEntry "water" "fixed" "pluto" ["transformation", "intensity", "mystery"]),
       ("sagittarius", signEntry "fire" "mutable" "jupiter" ["philosophy", "adventure", "truth"]),
       ("capricorn", signEntry "earth" "cardinal" "saturn" ["ambition", "structure", "authority"]),
       ("aquarius", signEntry "air" "fixed" "uranus" ["innovation", "humanity", "independence"]),
       ("pisces", signEntry "water" "mutable" "neptune" ["compassion", "spirituality", "imagination"])])]

/-- One planet entry of the planet-meanings content. -/
def planetEntry (keywords rules : List String) : PyVal :=
  .dict [("keywords", strs keywords), ("rules", strs rules)]

/-- `MCPService._get_planet_meanings_content`. -/
def planet_meanings_content : PyVal :=
  .dict
    [("planets", .dict
      [("sun", planetEntry ["identity", "ego", "vitality"] ["leo"]),
       ("moon", planetEntry ["emotions", "instincts", "nurturing"] ["cancer"]),
       ("mercury", planetEntry ["communication", "thinking", "learning"] ["gemini", "virgo"]),
       ("venus", planetEntry ["love", "beauty", "values"] ["taurus", "libra"]),
       ("mars", planetEntry ["action", "desire", "courage"] ["aries"]),
       ("jupiter", planetEntry ["expansion", "wisdom", "luck"] ["sagittarius"]),
       ("saturn", planetEntry ["discipline", "structure", "lessons"] ["capricorn"]),
       ("uranus", planetEntry ["innovation", "rebellion", "change"] ["aquarius"]),
       ("neptune", planetEntry ["spirituality", "illusion", "compassion"] ["pisces"]),
       ("pluto", planetEntry ["transformation", "power", "rebirth"] ["scorpio"])])]

/-- One house entry of the house-meanings content. -/
def houseEntry (hname : String) (keywords : List String) : PyVal :=
  .dict [("name", .str hname), ("keywords", strs keywords)]

/-- `MCPService._get_house_meanings_content`. -/
def house_meanings_content : PyVal :=
  .dict
    [("houses", .dict
      [("1", houseEntry "Ascendant" ["identity", "appearance", "first impressions"]),
       ("2", houseEntry "Possessions" ["money", "values", "self-worth"]),
       ("3", houseEntry "Communication" ["siblings", "learning", "short trips"]),
       ("4", houseEntry "Home" ["family", "roots", "security"]),
       ("5", houseEntry "Creativity" ["children", "romance", "self-expression"]),
       ("6", houseEntry "Service" ["work", "health", "daily routine"]),
       ("7", houseEntry "Partnerships" ["marriage", "open enemies", "cooperation"]),
       ("8", houseEntry "Transformation" ["death", "other" ++ squote ++ "s money", "occult"]),
       ("9", houseEntry "Philosophy" ["higher learning", "long trips", "beliefs"]),
       ("10", houseEntry "Career" ["reputation", "authority", "public image"]),
       ("11", houseEntry "Friends" ["groups", "hopes", "social causes"]),
       ("12", houseEntry "Unconscious" ["spirituality", "hidden enemies", "sacrifice"])])]

/-- The `content_map` of `MCPService.get_resource_content`. -/
def content_map : List (String × PyVal) :=
  [("astrological_objects", astrological_objects_content),
   ("house_systems", house_systems_content),
   ("aspect_patterns", aspect_patterns_content),
   ("sign_meanings", sign_meanings_content),
   ("planet_meanings", planet_meanings_content),
   ("house_meanings", house_meanings_content)]

/-- `MCPService.get_resource_content`: raise `ResourceNotFoundError`
when the URI is not registered, otherwise `content_map.get(uri, {})`. -/
def get_resource_content (uri : String) : Except Exc PyVal :=
  if resourceUris.contains uri then
    .ok ((content_map.lookup uri).getD (.dict []))
  else .error (.resourceNotFound uri)

/-- Swap the roles of the two planets in an aspect record: planet names
exchanged, applying and separating flags exchanged. -/
def swapAspect (a : Aspect) : Aspect :=
  { a with planet1 := a.planet2, planet2 := a.planet1,
           applying := a.separating, separating := a.applying }

/-- The `read_resource` route handler of `app/routes/mcp.py`: success
wraps `str(content)` into a single `ResourceContent`;
`ResourceNotFoundError` re-raises as a transport-level 404
`HTTPException`. -/
def read_resource (uri : String) : Except HTTPException ResourceReadResponse :=
  match get_resource_content uri with
  | .ok content =>
    .ok ⟨[{ uri := uri, mimeType := "application/json", text := pyStr content }]⟩
  | .error (.resourceNotFound u) => .error ⟨404, (Exc.resourceNotFound u).msg⟩
  | .error e => .error ⟨500, "Failed to read resource: " ++ e.msg⟩

end Immanuel

deriving instance DecidableEq for Except

namespace Immanuel

/-- Association-list lookup success implies membership of the pair. -/
theorem lookup_mem {α β : Type} [BEq α] [LawfulBEq α] (l : List (α × β)) (a : α) (b : β)
    (h : l.lookup a = some b) : (a, b) ∈ l := by
  induction l with
  | nil => simp [List.lookup] at h
  | cons hd tl ih =>
    obtain ⟨k, v⟩ := hd
    rw [List.lookup] at h
    cases hc : (a == k) with
    | true =>
      rw [hc] at h
      obtain rfl : v = b := by simpa using h
      obtain rfl : a = k := eq_of_beq hc
      exact List.mem_cons_self _ _
    | false =>
      rw [hc] at h
      exact List.mem_cons_of_mem _ (ih h)

/-- Every value stored in the static dignity table is 4 or 5. -/
theorem dignity_map_values :
    ∀ pr ∈ dignity_map, ∀ e ∈ pr.2, e.2 = 4 ∨ e.2 = 5 := by decide

/-- C7: the dignity score of a planet position satisfies: the total is
the sum of all seven components; when the (body, sign) pair is absent
from the static table every component and the total are zero; and when
the pair is present with value `v`, exactly one of ruler and exalted is
set, to the positive value `v`, the other being zero. -/
theorem calculate_planet_dignity_spec (p : PlanetPosition) :
    ((calculate_planet_dignity p).total_score =
      (calculate_planet_dignity p).ruler + (calculate_planet_dignity p).exalted +
      (calculate_planet_dignity p).triplicity + (calculate_planet_dignity p).term +
      (calculate_planet_dignity p).face + (calculate_planet_dignity p).detriment +
      (calculate_planet_dignity p).fall) ∧
    ((dignity_map.lookup (pyLowerStr p.name)).bind
        (fun tbl => tbl.lookup (pyLowerStr p.sign)) = none →
      (calculate_planet_dignity p).ruler = 0 ∧
      (calculate_planet_dignity p).exalted = 0 ∧
      (calculate_planet_dignity p).triplicity = 0 ∧
      (calculate_planet_dignity p).term = 0 ∧
      (calculate_planet_dignity p).face = 0 ∧
      (calculate_planet_dignity p).detriment = 0 ∧
      (calculate_planet_dignity p).fall = 0 ∧
      (calculate_planet_dignity p).total_score = 0) ∧
    (∀ v : Int, (dignity_map.lookup (pyLowerStr p.name)).bind
        (fun tbl => tbl.lookup (pyLowerStr p.sign)) = some v →
      ((calculate_planet_dignity p).ruler = v ∧ 0 < v ∧
        (calculate_planet_dignity p).exalted = 0) ∨
      ((calculate_planet_dignity p).exalted = v ∧ 0 < v ∧
        (calculate_planet_dignity p).ruler = 0)) := by
  cases hn : dignity_map.lookup (pyLowerStr p.name) with
  | none =>
    refine ⟨?_, ?_, ?_⟩
    · simp [calculate_planet_dignity, hn]
    · intro _; simp [calculate_planet_dignity, hn]
    · intro v hv; simp at hv
  | some tbl =>
    cases hsg : tbl.lookup (pyLowerStr p.sign) with
    | none =>
      refine ⟨?_, ?_, ?_⟩
      · simp [calculate_planet_dignity, hn, hsg]
      · intro _; simp [calculate_planet_dignity, hn, hsg]
      · intro v hv; simp [hsg] at hv
    | some v =>
      have hv45 : v = 4 ∨ v = 5 := by
        have h1 : (pyLowerStr p.name, tbl) ∈ dignity_map := lookup_mem _ _ _ hn
        have h2 : (pyLowerStr p.sign, v) ∈ tbl := lookup_mem _ _ _ hsg
        exact dignity_map_values _ h1 _ h2
      refine ⟨?_, ?_, ?_⟩
      · rcases hv45 with rfl | rfl <;> simp [calculate_planet_dignity, hn, hsg]
      · intro hnone; simp [hsg] at hnone
      · intro w hw
        obtain rfl : v = w := by simpa [hsg] using hw
        rcases hv45 with rfl | rfl
        · right; simp [calculate_planet_dignity, hn, hsg]
        · left; simp [calculate_planet_dignity, hn, hsg]

/-- C7 witness: the Sun in Leo scores ruler 5 with total 5, and Mercury
in Leo (absent from the table) scores all zeros. -/
theorem calculate_planet_dignity_spec_witness :
    ((calculate_planet_dignity
        { name := "Sun", longitude := 125, latitude := 0, distance := 1,
          speed := 1, sign := "Leo" }).ruler = 5 ∧
      (0 : Int) < 5 ∧
      (calculate_planet_dignity
        { name := "Sun", longitude := 125, latitude := 0, distance := 1,
          speed := 1, sign := "Leo" }).exalted = 0) ∧
    (calculate_planet_dignity
        { name := "Mercury", longitude := 125, latitude := 0, distance := 1,
          speed := 1, sign := "Leo" }).total_score = 0 := by
  constructor
  · have h := (calculate_planet_dignity_spec
      { name := "Sun", longitude := 125, latitude := 0, distance := 1,
        speed := 1, sign := "Leo" }).2.2 5 (by decide)
    rcases h with h | h
    · exact h
    · exact absurd h.1 (by decide)
  · have h := (calculate_planet_dignity_spec
      { name := "Mercury", longitude := 125, latitude := 0, distance := 1,
        speed := 1, sign := "Leo" }).2.1 (by decide)
    exact h.2.2.2.2.2.2.2

/-- Dropping while a predicate fails everywhere is the identity. -/
theorem dropWhile_eq_self_of_all {p : Char → Bool} {l : List Char}
    (h : ∀ x ∈ l, p x = false) : l.dropWhile p = l := by
  cases l with
  | nil => rfl
  | cons c cs =>
    rw [List.dropWhile_cons, if_neg]
    simp [h c (List.mem_cons_self _ _)]

/-- Stripping a string with no whitespace anywhere is the identity. -/
theorem pyStrip_eq_self {l : List Char} (h : ∀ x ∈ l, pyIsSpace x = false) :
    pyStrip l = l := by
  rw [pyStrip, dropWhile_eq_self_of_all h,
      dropWhile_eq_self_of_all (by intro x hx; exact h x (by simpa using hx)),
      List.reverse_reverse]

/-- `takeWhile` over a block of satisfying characters followed by a
failing one returns the block. -/
theorem takeWhile_append_cons {p : Char → Bool} (l : List Char) (c : Char) (r : List Char)
    (hl : ∀ x ∈ l, p x = true) (hc : p c = false) :
    (l ++ c :: r).takeWhile p = l := by
  induction l with
  | nil => simp [List.takeWhile_cons, hc]
  | cons a as ih =>
    rw [List.cons_append, List.takeWhile_cons, if_pos (hl a (List.mem_cons_self _ _))]
    rw [ih (fun x hx => hl x (List.mem_cons_of_mem _ hx))]

/-- `dropWhile` over a block of satisfying characters followed by a
failing one returns the failing suffix. -/
theorem dropWhile_append_cons {p : Char → Bool} (l : List Char) (c : Char) (r : List Char)
    (hl : ∀ x ∈ l, p x = true) (hc : p c = false) :
    (l ++ c :: r).dropWhile p = c :: r := by
  induction l with
  | nil => simp [List.dropWhile_cons, hc]
  | cons a as ih =>
    rw [List.cons_append, List.dropWhile_cons, if_pos (hl a (List.mem_cons_self _ _))]
    exact ih (fun x hx => hl x (List.mem_cons_of_mem _ hx))

/-- `span` splits a digit block from the first non-digit. -/
theorem span_append_cons {p : Char → Bool} (l : List Char) (c : Char) (r : List Char)
    (hl : ∀ x ∈ l, p x = true) (hc : p c = false) :
    (l ++ c :: r).span p = (l, c :: r) := by
  rw [List.span_eq_take_drop, takeWhile_append_cons l c r hl hc,
      dropWhile_append_cons l c r hl hc]

/-- A digit character is not changed by lowercasing. -/
theorem pyLowerChar_digit {c : Char} (h : pyIsDigit c = true) : pyLowerChar c = c := by
  rw [pyLowerChar, if_neg]
  intro hcond
  simp only [pyIsDigit, Bool.and_eq_true, decide_eq_true_eq] at h
  simp only [Bool.and_eq_true, decide_eq_true_eq] at hcond
  omega

/-- Lowercasing a list of digits is the identity. -/
theorem pyLower_digits {l : List Char} (h : ∀ x ∈ l, pyIsDigit x = true) :
    pyLower l = l := by
  rw [pyLower]
  have : l.map pyLowerChar = l.map id :=
    List.map_congr_left (fun x hx => pyLowerChar_digit (h x hx))
  simpa using this

/-- A digit character is not whitespace. -/
theorem pyIsSpace_digit {c : Char} (h : pyIsDigit c = true) : pyIsSpace c = false := by
  simp only [pyIsDigit, Bool.and_eq_true, decide_eq_true_eq] at h
  simp [pyIsSpace]
  omega

/-- The regex of `parse_coordinate` matches a digit block, a lowercase
direction letter and a trailing digit block. -/
theorem matchDMS_dms (ds ms : List Char) (c : Char)
    (hds : ds ≠ []) (hms : ms ≠ [])
    (hd : ∀ x ∈ ds, pyIsDigit x = true) (hm : ∀ x ∈ ms, pyIsDigit x = true)
    (hc : c = 'n' ∨ c = 's' ∨ c = 'w' ∨ c = 'e') :
    matchDMS (ds ++ c :: ms) = some (ds, c, ms) := by
  have hcd : pyIsDigit c = false := by
    rcases hc with rfl | rfl | rfl | rfl <;> decide
  have hguard : (c = 'n' || c = 's' || c = 'w' || c = 'e') = true := by
    rcases hc with rfl | rfl | rfl | rfl <;> decide
  rw [matchDMS, span_append_cons ds c ms hd hcd]
  dsimp only
  rw [List.span_eq_take_drop, List.takeWhile_eq_self_iff.2 (by simpa using hm),
      List.dropWhile_eq_nil_iff.2 (by intro x hx; simpa using hm x hx)]
  simp [List.isEmpty_iff, hds, hms, hguard]


/-- Membership in `toolNames` decides `get_tool`. -/
theorem get_tool_eq (name : String) :
    get_tool name = if name ∈ toolNames then .ok name else .error (.toolNotFound name) := by
  simp [get_tool, List.elem_iff]

/-- Failing pipelines always produce the in-band error payload. -/
theorem call_tool_of_pipeline_error (validate : String → PyVal → Except Exc Unit)
    (impl : String → PyVal → Except Exc PyVal) (name : String) (args : PyVal)
    (e : Exc) (h : call_tool_pipeline validate impl name args = .error e) :
    call_tool validate impl name args =
      .ok ⟨⟨[{ type := "text", text := "Tool execution failed: " ++ e.msg }], true⟩⟩ := by
  simp [call_tool, h]

/-- C1: whenever the tool lookup, sanitization, validation or execution
of a `tools/call` request raises an application exception — in
particular a `ToolNotFoundError` or a `ValidationError` — the handler
still returns a normal `ToolCallResponse` whose result has
`isError = true` and whose content text contains the failure message;
an unknown tool name yields such a response whose text names the
missing tool; and the handler never returns a transport-level
`HTTPException` for any input. -/
theorem call_tool_error_policy (validate : String → PyVal → Except Exc Unit)
    (impl : String → PyVal → Except Exc PyVal) (name : String) (args : PyVal) :
    (∀ e : Exc, call_tool_pipeline validate impl name args = .error e →
      ∃ resp, call_tool validate impl name args = .ok resp ∧
        resp.result.isError = true ∧
        ∃ pre, resp.result.content.map ContentItem.text = [pre ++ e.msg]) ∧
    (name ∉ toolNames →
      ∃ resp, call_tool validate impl name args = .ok resp ∧
        resp.result.isError = true ∧
        ∃ pre post, resp.result.content.map ContentItem.text = [pre ++ name ++ post]) ∧
    (∃ resp, call_tool validate impl name args = .ok resp) := by
  refine ⟨?_, ?_, ?_⟩
  · intro e he
    exact ⟨_, call_tool_of_pipeline_error validate impl name args e he,
      rfl, "Tool execution failed: ", rfl⟩
  · intro hmem
    have hg : get_tool name = .error (.toolNotFound name) := by
      rw [get_tool_eq, if_neg hmem]
    have hp : call_tool_pipeline validate impl name args = .error (.toolNotFound name) := by
      rw [call_tool_pipeline, hg]; rfl
    refine ⟨_, call_tool_of_pipeline_error validate impl name args _ hp, rfl, ?_⟩
    refine ⟨"Tool execution failed: Tool " ++ squote, squote ++ " not found", ?_⟩
    simp only [List.map, Exc.msg, String.append_assoc]
    rfl
  · cases hres : call_tool_pipeline validate impl name args with
    | ok d =>
      exact ⟨⟨⟨[{ type := "text",
                  text := "Tool " ++ squote ++ name ++ squote ++ " executed successfully",
                  data := some d }], false⟩⟩, by simp [call_tool, hres]⟩
    | error e => exact ⟨_, call_tool_of_pipeline_error validate impl name args e hres⟩

/-- C1 witness: calling the unregistered tool name `invalid_tool_name`
returns an in-band error response naming it. -/
theorem call_tool_error_policy_witness :
    ∃ resp, call_tool (fun _ _ => .ok ()) (fun _ _ => .ok .pynone)
        "invalid_tool_name" (.dict []) = .ok resp ∧
      resp.result.isError = true ∧
      ∃ pre post, resp.result.content.map ContentItem.text =
        [pre ++ "invalid_tool_name" ++ post] :=
  (call_tool_error_policy (fun _ _ => .ok ()) (fun _ _ => .ok .pynone)
    "invalid_tool_name" (.dict [])).2.1 (by decide)

/-- Unfolded form of `pyStr` on a dict, giving a length bound. -/
theorem pyStr_dict_ne_empty (xs : List (String × PyVal)) : pyStr (.dict xs) ≠ "" := by
  intro h
  have hl := congrArg String.length h
  rw [pyStr] at hl
  simp only [String.length_append] at hl
  have h1 : String.length "\x7b" = 1 := rfl
  have h2 : String.length "\x7d" = 1 := rfl
  have h0 : String.length "" = 0 := rfl
  omega

/-- C8: reading a URI absent from the resource catalog fails with a
transport-level 404 `HTTPException` carrying the NotFound message (not
an in-band `isError` payload), while reading the registered URI
`astrological_objects` succeeds with a single content entry whose text
is non-empty. -/
theorem read_resource_notFound_policy (uri : String) :
    (uri ∉ resourceUris →
      read_resource uri = .error ⟨404, (Exc.resourceNotFound uri).msg⟩) ∧
    (∃ r, read_resource "astrological_objects" = .ok r ∧
      r.contents.length = 1 ∧ ∀ c ∈ r.contents, c.text ≠ "") := by
  constructor
  · intro hmem
    have hc : resourceUris.contains uri = false := by
      simpa [List.elem_iff] using hmem
    simp [read_resource, get_resource_content, hc, hmem]
  · refine ⟨_, rfl, rfl, ?_⟩
    intro c hc
    have : c = { uri := "astrological_objects", mimeType := "application/json",
                 text := pyStr astrological_objects_content } := by
      simpa [read_resource, get_resource_content, content_map] using hc
    rw [this]
    exact pyStr_dict_ne_empty _

/-- C8 witness: the unregistered URI `nonexistent` yields the 404
transport error. -/
theorem read_resource_notFound_policy_witness :
    read_resource "nonexistent" = .error ⟨404, (Exc.resourceNotFound "nonexistent").msg⟩ :=
  (read_resource_notFound_policy "nonexistent").1 (by decide)

/-- The separation of `_calculate_aspect` is exactly
`min(|lonA − lonB|, 360 − |lonA − lonB|)`, for all rational inputs. -/
theorem sepDiff_eq_min (a b : ℚ) : sepDiff a b = min |a - b| (360 - |a - b|) := by
  rw [sepDiff]
  by_cases h : |a - b| > 180
  · rw [if_pos h, min_eq_right (by linarith)]
  · rw [if_neg h, min_eq_left (by push_neg at h; linarith)]

/-- The separation is symmetric in the two longitudes. -/
theorem sepDiff_comm (a b : ℚ) : sepDiff a b = sepDiff b a := by
  rw [sepDiff, sepDiff, abs_sub_comm]

/-- The separation never exceeds 180. -/
theorem sepDiff_le_180 (a b : ℚ) : sepDiff a b ≤ 180 := by
  rw [sepDiff]
  by_cases h : |a - b| > 180
  · rw [if_pos h]; linarith
  · rw [if_neg h]; push_neg at h; exact h

/-- The separation is non-negative whenever the longitudes are less
than 360 apart. -/
theorem sepDiff_nonneg (a b : ℚ) (h : |a - b| ≤ 360) : 0 ≤ sepDiff a b := by
  rw [sepDiff]
  by_cases h2 : |a - b| > 180
  · rw [if_pos h2]; linarith
  · rw [if_neg h2]; exact abs_nonneg _

/-- The scanning loop returns nothing exactly when no table entry is
within its orb. -/
theorem findAspect_eq_none_iff (p1 p2 : PlanetPosition) (orbs : List (String × ℚ))
    (diff : ℚ) (l : List (ℚ × String)) :
    findAspect p1 p2 orbs diff l = none ↔
      ∀ t ∈ l, ¬(|diff - t.1| ≤ orbGet orbs t.2) := by
  induction l with
  | nil => simp [findAspect]
  | cons t rest ih =>
    obtain ⟨deg, aname⟩ := t
    by_cases h : |diff - deg| ≤ orbGet orbs aname
    · simp [findAspect, h]
    · rw [findAspect, if_neg h, ih]
      constructor
      · intro hr t ht
        rcases List.mem_cons.1 ht with rfl | ht2
        · exact h
        · exact hr t ht2
      · intro hall t ht
        exact hall t (List.mem_cons_of_mem _ ht)

/-- The scanning loop returns the aspect built from the first table
entry within its orb: all earlier entries fail their orb test, the
returned entry passes it, and the record fields come from that entry. -/
theorem findAspect_eq_some (p1 p2 : PlanetPosition) (orbs : List (String × ℚ))
    (diff : ℚ) (l : List (ℚ × String)) (a : Aspect)
    (h : findAspect p1 p2 orbs diff l = some a) :
    ∃ i : ℕ, ∃ hi : i < l.length,
      (∀ s ∈ l.take i, ¬(|diff - s.1| ≤ orbGet orbs s.2)) ∧
      |diff - (l.get ⟨i, hi⟩).1| ≤ orbGet orbs (l.get ⟨i, hi⟩).2 ∧
      a = { planet1 := p1.name, planet2 := p2.name,
            aspect_type := (l.get ⟨i, hi⟩).2,
            orb := |diff - (l.get ⟨i, hi⟩).1|,
            exact_orb := (l.get ⟨i, hi⟩).1,
            applying := decide (p2.speed < p1.speed),
            separating := decide (p1.speed < p2.speed) } := by
  induction l with
  | nil => simp [findAspect] at h
  | cons t rest ih =>
    obtain ⟨deg, aname⟩ := t
    by_cases hc : |diff - deg| ≤ orbGet orbs aname
    · refine ⟨0, by simp, by simp, by simpa using hc, ?_⟩
      rw [findAspect, if_pos hc] at h
      exact (Option.some_injective _ h).symm
    · rw [findAspect, if_neg hc] at h
      obtain ⟨i, hi, hpre, hcur, ha⟩ := ih h
      refine ⟨i + 1, by simpa using hi, ?_, by simpa using hcur, by simpa using ha⟩
      intro s hs
      rcases (List.mem_cons).1 (by simpa using hs) with rfl | hs2
      · exact hc
      · exact hpre s hs2

/-- C2: for positions whose longitudes satisfy the documented data-model
invariant `0 ≤ longitude < 360`, `_calculate_aspect` computes the
separation `d = min(|lonA − lonB|, 360 − |lonA − lonB|)`, which lies in
`[0, 180]`; it scans the aspect table in the fixed order conjunction,
sextile, square, trine, opposition and returns the aspect built from the
first entry whose deviation is within its orb — with
`orb = |d − exactAngle|`, `applying = speedA > speedB`,
`separating = speedA < speedB`, and neither flag set for equal speeds —
and it returns nothing exactly when no entry is within its orb. -/
theorem calculate_aspect_spec (p1 p2 : PlanetPosition) (orbs : List (String × ℚ))
    (h1 : 0 ≤ p1.longitude) (h2 : p1.longitude < 360)
    (h3 : 0 ≤ p2.longitude) (h4 : p2.longitude < 360) :
    sepDiff p1.longitude p2.longitude
        = min |p1.longitude - p2.longitude| (360 - |p1.longitude - p2.longitude|) ∧
    0 ≤ sepDiff p1.longitude p2.longitude ∧
    sepDiff p1.longitude p2.longitude ≤ 180 ∧
    aspectsToCheck = [(0, "conjunction"), (60, "sextile"), (90, "square"),
                      (120, "trine"), (180, "opposition")] ∧
    (∀ a, calculate_aspect p1 p2 orbs = some a →
      ∃ i : ℕ, ∃ hi : i < aspectsToCheck.length,
        (∀ s ∈ aspectsToCheck.take i,
          ¬(|sepDiff p1.longitude p2.longitude - s.1| ≤ orbGet orbs s.2)) ∧
        a.aspect_type = (aspectsToCheck.get ⟨i, hi⟩).2 ∧
        a.orb = |sepDiff p1.longitude p2.longitude - (aspectsToCheck.get ⟨i, hi⟩).1| ∧
        a.orb ≤ orbGet orbs a.aspect_type ∧
        a.applying = decide (p2.speed < p1.speed) ∧
        a.separating = decide (p1.speed < p2.speed) ∧
        (p1.speed = p2.speed → a.applying = false ∧ a.separating = false)) ∧
    (calculate_aspect p1 p2 orbs = none ↔
      ∀ t ∈ aspectsToCheck,
        ¬(|sepDiff p1.longitude p2.longitude - t.1| ≤ orbGet orbs t.2)) := by
  have habs : |p1.longitude - p2.longitude| ≤ 360 := by
    rw [abs_le]; constructor <;> linarith
  refine ⟨sepDiff_eq_min _ _, sepDiff_nonneg _ _ habs, sepDiff_le_180 _ _, rfl, ?_, ?_⟩
  · intro a ha
    obtain ⟨i, hi, hpre, hcur, hrec⟩ :=
      findAspect_eq_some p1 p2 orbs (sepDiff p1.longitude p2.longitude) aspectsToCheck a ha
    refine ⟨i, hi, hpre, by rw [hrec], by rw [hrec], ?_, by rw [hrec], by rw [hrec], ?_⟩
    · rw [hrec]; exact hcur
    · intro hsp
      rw [hrec]
      constructor <;> simp [hsp]
  · exact findAspect_eq_none_iff p1 p2 orbs _ _

/-- C2 witness: two concrete positions at longitudes 10 and 250 with the
default orb table. -/
theorem calculate_aspect_spec_witness :
    0 ≤ sepDiff (10 : ℚ) 250 ∧ sepDiff (10 : ℚ) 250 ≤ 180 ∧
    (calculate_aspect
        { name := "sun", longitude := 10, latitude := 0, distance := 1,
          speed := 1, sign := "aries" }
        { name := "moon", longitude := 250, latitude := 0, distance := 1,
          speed := 12, sign := "scorpio" } ASPECT_ORBS = none ↔
      ∀ t ∈ aspectsToCheck, ¬(|sepDiff (10 : ℚ) 250 - t.1| ≤ orbGet ASPECT_ORBS t.2)) := by
  have h := calculate_aspect_spec
    { name := "sun", longitude := 10, latitude := 0, distance := 1,
      speed := 1, sign := "aries" }
    { name := "moon", longitude := 250, latitude := 0, distance := 1,
      speed := 12, sign := "scorpio" } ASPECT_ORBS
    (by norm_num) (by norm_num) (by norm_num) (by norm_num)
  exact ⟨h.2.1, h.2.2.1, h.2.2.2.2.2⟩

/-- The scanning loop applied to the swapped pair returns the swapped
aspect record. -/
theorem findAspect_swap (p1 p2 : PlanetPosition) (orbs : List (String × ℚ))
    (diff : ℚ) (l : List (ℚ × String)) :
    findAspect p2 p1 orbs diff l = (findAspect p1 p2 orbs diff l).map swapAspect := by
  induction l with
  | nil => simp [findAspect]
  | cons t rest ih =>
    obtain ⟨deg, aname⟩ := t
    by_cases h : |diff - deg| ≤ orbGet orbs aname
    · rw [findAspect, if_pos h, findAspect, if_pos h]
      rfl
    · rw [findAspect, if_neg h, findAspect, if_neg h, ih]

/-- C10: aspect detection is symmetric up to direction flags — the two
orders of a pair either both return an aspect or both return none, and
when both return, the aspect type and orb agree while the applying flag
of each equals the separating flag of the other. -/
theorem calculate_aspect_symm (p1 p2 : PlanetPosition) (orbs : List (String × ℚ)) :
    ((calculate_aspect p1 p2 orbs).isSome ↔ (calculate_aspect p2 p1 orbs).isSome) ∧
    (∀ a b, calculate_aspect p1 p2 orbs = some a → calculate_aspect p2 p1 orbs = some b →
      a.aspect_type = b.aspect_type ∧ a.orb = b.orb ∧
      a.applying = b.separating ∧ a.separating = b.applying) := by
  have hswap : calculate_aspect p2 p1 orbs = (calculate_aspect p1 p2 orbs).map swapAspect := by
    rw [calculate_aspect, calculate_aspect, sepDiff_comm p2.longitude p1.longitude]
    exact findAspect_swap p1 p2 orbs _ _
  constructor
  · rw [hswap]; cases calculate_aspect p1 p2 orbs <;> simp
  · intro a b ha hb
    rw [hswap, ha] at hb
    rw [show Option.map swapAspect (some a) = some (swapAspect a) from rfl] at hb
    obtain rfl : swapAspect a = b := Option.some_injective _ hb
    exact ⟨rfl, rfl, rfl, rfl⟩

/-- C10 witness: a concrete pair at longitudes 0 and 90 with speeds 1
and 0, checked in both orders. -/
theorem calculate_aspect_symm_witness :
    ∃ a b, calculate_aspect
        { name := "sun", longitude := 0, latitude := 0, distance := 1,
          speed := 1, sign := "aries" }
        { name := "moon", longitude := 90, latitude := 0, distance := 1,
          speed := 0, sign := "cancer" } ASPECT_ORBS = some a ∧
      calculate_aspect
        { name := "moon", longitude := 90, latitude := 0, distance := 1,
          speed := 0, sign := "cancer" }
        { name := "sun", longitude := 0, latitude := 0, distance := 1,
          speed := 1, sign := "aries" } ASPECT_ORBS = some b ∧
      a.aspect_type = b.aspect_type ∧ a.orb = b.orb ∧
      a.applying = b.separating ∧ a.separating = b.applying := by
  have hd : sepDiff (0 : ℚ) 90 = 90 := by
    rw [sepDiff]
    have : |(0 : ℚ) - 90| = 90 := by rw [abs_sub_comm]; simp
    rw [this, if_neg (by norm_num)]
  have hd2 : sepDiff (90 : ℚ) 0 = 90 := by rw [sepDiff_comm]; exact hd
  have ha : calculate_aspect
      { name := "sun", longitude := 0, latitude := 0, distance := 1,
        speed := 1, sign := "aries" }
      { name := "moon", longitude := 90, latitude := 0, distance := 1,
        speed := 0, sign := "cancer" } ASPECT_ORBS =
      some { planet1 := "sun", planet2 := "moon", aspect_type := "square",
             orb := 0, exact_orb := 90, applying := true, separating := false } := by
    rw [calculate_aspect]
    simp only [hd, aspectsToCheck, findAspect]
    rw [if_neg (by rw [show orbGet ASPECT_ORBS "conjunction" = 8 from rfl]; norm_num),
        if_neg (by rw [show orbGet ASPECT_ORBS "sextile" = 6 from rfl]; norm_num),
        if_pos (by rw [show orbGet ASPECT_ORBS "square" = 8 from rfl]; norm_num)]
    norm_num
  have hb : calculate_aspect
      { name := "moon", longitude := 90, latitude := 0, distance := 1,
        speed := 0, sign := "cancer" }
      { name := "sun", longitude := 0, latitude := 0, distance := 1,
        speed := 1, sign := "aries" } ASPECT_ORBS =
      some { planet1 := "moon", planet2 := "sun", aspect_type := "square",
             orb := 0, exact_orb := 90, applying := false, separating := true } := by
    rw [calculate_aspect]
    simp only [hd2, aspectsToCheck, findAspect]
    rw [if_neg (by rw [show orbGet ASPECT_ORBS "conjunction" = 8 from rfl]; norm_num),
        if_neg (by rw [show orbGet ASPECT_ORBS "sextile" = 6 from rfl]; norm_num),
        if_pos (by rw [show orbGet ASPECT_ORBS "square" = 8 from rfl]; norm_num)]
    norm_num
  refine ⟨_, _, ha, hb, ?_⟩
  exact (calculate_aspect_symm _ _ ASPECT_ORBS).2 _ _ ha hb

/-- C9 counterexample: at longitudes exactly 90° apart, an orb table
whose entries are all 90 (hence all ≥ 0) makes `_calculate_aspect`
return a conjunction — the conjunction entry is scanned first and
`|90 − 0| ≤ 90` — not the square the claim requires. -/
theorem calculate_aspect_square_counterexample :
    0 ≤ (90 : ℚ) ∧
    |(0 : ℚ) - 90| = 90 ∧
    (calculate_aspect
        { name := "sun", longitude := 0, latitude := 0, distance := 1,
          speed := 0, sign := "aries" }
        { name := "moon", longitude := 90, latitude := 0, distance := 1,
          speed := 0, sign := "cancer" }
        [("conjunction", 90), ("sextile", 90), ("square", 90),
         ("trine", 90), ("opposition", 90)]).map Aspect.aspect_type = some "conjunction" ∧
    "conjunction" ≠ "square" := by
  have habs : |(0 : ℚ) - 90| = 90 := by rw [abs_sub_comm]; simp
  have hd : sepDiff (0 : ℚ) 90 = 90 := by
    rw [sepDiff, habs, if_neg (by norm_num)]
  refine ⟨by norm_num, habs, ?_, by decide⟩
  rw [calculate_aspect]
  simp only [hd, aspectsToCheck, findAspect]
  rw [if_pos (by
    rw [show orbGet [("conjunction", (90 : ℚ)), ("sextile", 90), ("square", 90),
      ("trine", 90), ("opposition", 90)] "conjunction" = 90 from rfl]
    norm_num)]
  rfl

/-- C9 amended: for two positions whose longitudes are exactly 90°
apart and an orb table whose entries are ≥ 0, with the conjunction orb
below 90 and the sextile orb below 30 (so that neither earlier table
entry can capture the pair), `_calculate_aspect` returns a square aspect
with orb 0. -/
theorem calculate_aspect_exact_square (p1 p2 : PlanetPosition) (orbs : List (String × ℚ))
    (h : |p1.longitude - p2.longitude| = 90)
    (hsq : 0 ≤ orbGet orbs "square")
    (hconj : orbGet orbs "conjunction" < 90)
    (hsext : orbGet orbs "sextile" < 30) :
    ∃ a, calculate_aspect p1 p2 orbs = some a ∧
      a.aspect_type = "square" ∧ a.orb = 0 := by
  have hd : sepDiff p1.longitude p2.longitude = 90 := by
    rw [sepDiff, h, if_neg (by norm_num)]
  rw [calculate_aspect]
  simp only [hd, aspectsToCheck, findAspect]
  rw [if_neg (by rw [show |(90 : ℚ) - 0| = 90 by norm_num]; intro hc; linarith),
      if_neg (by rw [show |(90 : ℚ) - 60| = 30 by norm_num]; intro hc; linarith),
      if_pos (by rw [show |(90 : ℚ) - 90| = 0 by norm_num]; exact hsq)]
  exact ⟨_, rfl, rfl, by norm_num⟩

/-- C9 witness: longitudes 0 and 90 with the default orb table. -/
theorem calculate_aspect_exact_square_witness :
    ∃ a, calculate_aspect
        { name := "sun", longitude := 0, latitude := 0, distance := 1,
          speed := 0, sign := "aries" }
        { name := "moon", longitude := 90, latitude := 0, distance := 1,
          speed := 0, sign := "cancer" } ASPECT_ORBS = some a ∧
      a.aspect_type = "square" ∧ a.orb = 0 := by
  refine calculate_aspect_exact_square _ _ ASPECT_ORBS ?_ ?_ ?_ ?_
  · show |(0 : ℚ) - 90| = 90
    rw [abs_sub_comm]; simp
  · rw [show orbGet ASPECT_ORBS "square" = 8 from rfl]; norm_num
  · rw [show orbGet ASPECT_ORBS "conjunction" = 8 from rfl]; norm_num
  · rw [show orbGet ASPECT_ORBS "sextile" = 6 from rfl]; norm_num

/-- On a non-empty list the compatibility score is the clamped affine
image of `(countHarmonious − countChallenging) / total`. -/
theorem compatibility_score_nonempty (l : List Aspect) (h : l ≠ []) :
    compatibility_score l =
      max 0 (min 100
        (((((l.filter (fun a => harmonious.contains a.aspect_type)).length : ℚ)
            - ((l.filter (fun a => challenging.contains a.aspect_type)).length : ℚ))
          / (l.length : ℚ) + 1) * 50)) := by
  rw [compatibility_score]
  rw [if_neg (by simpa [List.isEmpty_iff] using h)]
  rw [if_neg (by simpa [List.length_eq_zero] using h)]

/-- A type in the harmonious list is not in the challenging list. -/
theorem not_challenging_of_harmonious {x : String} (h : x ∈ harmonious) :
    x ∉ challenging := by
  simp only [harmonious, List.mem_cons, List.not_mem_nil, or_false] at h
  rcases h with rfl | rfl | rfl <;> decide

/-- A type in the challenging list is not in the harmonious list. -/
theorem not_harmonious_of_challenging {x : String} (h : x ∈ challenging) :
    x ∉ harmonious := by
  simp only [challenging, List.mem_cons, List.not_mem_nil, or_false] at h
  rcases h with rfl | rfl <;> decide

/-- Monotonicity of the clamped affine map in the raw score. -/
theorem clamp_formula_mono {r r' : ℚ} (h : r ≤ r') :
    max 0 (min 100 ((r + 1) * 50)) ≤ max 0 (min 100 ((r' + 1) * 50)) :=
  max_le_max le_rfl (min_le_min le_rfl (by linarith))

/-- C4: appending a harmonious aspect never decreases the compatibility
score, appending a challenging aspect never increases it, and the empty
aspect list scores exactly 0. -/
theorem compatibility_score_monotone (l : List Aspect) (a : Aspect) :
    compatibility_score ([] : List Aspect) = 0 ∧
    (a.aspect_type ∈ harmonious →
      compatibility_score l ≤ compatibility_score (l ++ [a])) ∧
    (a.aspect_type ∈ challenging →
      compatibility_score (l ++ [a]) ≤ compatibility_score l) := by
  refine ⟨rfl, ?_, ?_⟩
  · intro hmem
    have hfc : a.aspect_type ∉ challenging := not_challenging_of_harmonious hmem
    by_cases hl : l = []
    · subst hl
      rw [show compatibility_score ([] : List Aspect) = 0 from rfl]
      rw [compatibility_score_nonempty ([] ++ [a]) (by simp)]
      exact le_max_left _ _
    · rw [compatibility_score_nonempty l hl,
          compatibility_score_nonempty (l ++ [a]) (by simp [hl]),
          List.filter_append, List.filter_append,
          show List.filter (fun x => harmonious.contains x.aspect_type) [a] = [a] by
            simp [hmem],
          show List.filter (fun x => challenging.contains x.aspect_type) [a] = [] by
            simp [hfc]]
      simp only [List.length_append, List.length_cons, List.length_nil, List.append_nil]
      have hp : ((l.filter (fun x => harmonious.contains x.aspect_type)).length : ℚ)
          ≤ (l.length : ℚ) := by exact_mod_cast List.length_filter_le _ _
      have hn : (0 : ℚ) ≤ ((l.filter (fun x => challenging.contains x.aspect_type)).length : ℚ) := by
        positivity
      have ht : (0 : ℚ) < (l.length : ℚ) := by
        exact_mod_cast List.length_pos.2 hl
      apply clamp_formula_mono
      push_cast
      rw [div_le_div_iff₀ ht (by linarith)]
      ring_nf
      nlinarith [hp, hn, ht]
  · intro hmem
    have hfa : a.aspect_type ∉ harmonious := not_harmonious_of_challenging hmem
    by_cases hl : l = []
    · subst hl
      rw [show compatibility_score ([] : List Aspect) = 0 from rfl]
      rw [compatibility_score_nonempty ([] ++ [a]) (by simp),
          show List.filter (fun x => harmonious.contains x.aspect_type) ([] ++ [a]) = [] by
            simp [hfa],
          show List.filter (fun x => challenging.contains x.aspect_type) ([] ++ [a]) = [a] by
            simp [hmem]]
      norm_num [min_def, max_def]
    · rw [compatibility_score_nonempty l hl,
          compatibility_score_nonempty (l ++ [a]) (by simp [hl]),
          List.filter_append, List.filter_append,
          show List.filter (fun x => harmonious.contains x.aspect_type) [a] = [] by
            simp [hfa],
          show List.filter (fun x => challenging.contains x.aspect_type) [a] = [a] by
            simp [hmem]]
      simp only [List.length_append, List.length_cons, List.length_nil, List.append_nil]
      have hnC : ((l.filter (fun x => challenging.contains x.aspect_type)).length : ℚ)
          ≤ (l.length : ℚ) := by exact_mod_cast List.length_filter_le _ _
      have hpH : (0 : ℚ) ≤ ((l.filter (fun x => harmonious.contains x.aspect_type)).length : ℚ) := by
        positivity
      have ht : (0 : ℚ) < (l.length : ℚ) := by
        exact_mod_cast List.length_pos.2 hl
      apply clamp_formula_mono
      push_cast
      rw [div_le_div_iff₀ (by linarith) ht]
      ring_nf
      nlinarith [hnC, hpH, ht]

/-- C4 witness: appending a trine to the empty list does not decrease
the score, and appending a square does not increase it. -/
theorem compatibility_score_monotone_witness :
    compatibility_score ([] : List Aspect) = 0 ∧
    compatibility_score [] ≤ compatibility_score
      ([] ++ [{ planet1 := "sun", planet2 := "moon", aspect_type := "trine",
                orb := 1, exact_orb := 120, applying := true, separating := false }]) ∧
    compatibility_score
      ([] ++ [{ planet1 := "sun", planet2 := "moon", aspect_type := "square",
                orb := 1, exact_orb := 90, applying := true, separating := false }])
      ≤ compatibility_score [] := by
  refine ⟨(compatibility_score_monotone []
    { planet1 := "sun", planet2 := "moon", aspect_type := "trine",
      orb := 1, exact_orb := 120, applying := true, separating := false }).1, ?_, ?_⟩
  · exact (compatibility_score_monotone []
      { planet1 := "sun", planet2 := "moon", aspect_type := "trine",
        orb := 1, exact_orb := 120, applying := true, separating := false }).2.1
      (by decide)
  · exact (compatibility_score_monotone []
      { planet1 := "sun", planet2 := "moon", aspect_type := "square",
        orb := 1, exact_orb := 90, applying := true, separating := false }).2.2
      (by decide)

/-- C3 counterexample: the code returns 0 on the empty aspect list,
while the claimed formula `clamp((raw + 1) × 50, 0, 100)` with `raw = 0`
yields 50 there. -/
theorem compatibility_score_empty_counterexample :
    compatibility_score ([] : List Aspect) = 0 ∧
    specCompatibilityFormula ([] : List Aspect) = 50 ∧
    (0 : ℚ) ≠ 50 := by
  refine ⟨rfl, ?_, by norm_num⟩
  rw [specCompatibilityFormula]
  norm_num [min_def, max_def]

/-- C3 amended: the compatibility score always lies in `[0, 100]`, is 0
on the empty list (returned by an early guard, not by the clamp
formula), and on every non-empty list equals the spec formula
`clamp((raw + 1) × 50, 0, 100)` with
`raw = (countHarmonious − countChallenging) / totalAspects`. -/
theorem compatibility_score_spec (l : List Aspect) :
    0 ≤ compatibility_score l ∧ compatibility_score l ≤ 100 ∧
    compatibility_score ([] : List Aspect) = 0 ∧
    (l ≠ [] → compatibility_score l = specCompatibilityFormula l) := by
  have hformula : l ≠ [] → compatibility_score l = specCompatibilityFormula l := by
    intro h
    rw [compatibility_score_nonempty l h, specCompatibilityFormula]
    rw [if_neg (by simpa [List.length_eq_zero] using h)]
  refine ⟨?_, ?_, rfl, hformula⟩
  · by_cases h : l = []
    · subst h; norm_num [compatibility_score]
    · rw [compatibility_score_nonempty l h]; exact le_max_left _ _
  · by_cases h : l = []
    · subst h; norm_num [compatibility_score]
    · rw [compatibility_score_nonempty l h]
      exact max_le (by norm_num) (min_le_left _ _)

/-- C3 witness: a one-element trine list is scored by the clamp
formula. -/
theorem compatibility_score_spec_witness :
    compatibility_score
        [{ planet1 := "sun", planet2 := "moon", aspect_type := "trine",
           orb := 1, exact_orb := 120, applying := true, separating := false }] =
      specCompatibilityFormula
        [{ planet1 := "sun", planet2 := "moon", aspect_type := "trine",
           orb := 1, exact_orb := 120, applying := true, separating := false }] :=
  (compatibility_score_spec _).2.2.2 (by decide)


/-- Evaluation of `parse_coordinate` on a degree-direction-minutes
string: digits, one direction letter in either case, digits. -/
theorem parse_coordinate_dms_eq (ds ms : List Char) (c : Char)
    (hds : ds ≠ []) (hms : ms ≠ [])
    (hd : ∀ x ∈ ds, pyIsDigit x = true) (hm : ∀ x ∈ ms, pyIsDigit x = true)
    (hc : c ∈ (['n', 's', 'e', 'w', 'N', 'S', 'E', 'W'] : List Char)) :
    parse_coordinate (.str (String.mk (ds ++ c :: ms))) =
      .ok (.finite (if pyLowerChar c = 's' ∨ pyLowerChar c = 'w'
           then -(digitsValQ ds + digitsValQ ms / 60)
           else digitsValQ ds + digitsValQ ms / 60)) := by
  have hc8 : c = 'n' ∨ c = 's' ∨ c = 'e' ∨ c = 'w' ∨
      c = 'N' ∨ c = 'S' ∨ c = 'E' ∨ c = 'W' := by simpa using hc
  have hlc : pyLowerChar c = 'n' ∨ pyLowerChar c = 's' ∨
      pyLowerChar c = 'w' ∨ pyLowerChar c = 'e' := by
    rcases hc8 with rfl | rfl | rfl | rfl | rfl | rfl | rfl | rfl <;> decide
  have hcsp : pyIsSpace c = false := by
    rcases hc8 with rfl | rfl | rfl | rfl | rfl | rfl | rfl | rfl <;> decide
  have hstrip : pyStrip (ds ++ c :: ms) = ds ++ c :: ms := by
    apply pyStrip_eq_self
    intro x hx
    rcases List.mem_append.1 hx with hx | hx
    · exact pyIsSpace_digit (hd x hx)
    · rcases List.mem_cons.1 hx with rfl | hx2
      · exact hcsp
      · exact pyIsSpace_digit (hm x hx2)
  have hlower : pyLower (ds ++ c :: ms) = ds ++ pyLowerChar c :: ms := by
    have h1 : pyLower (ds ++ c :: ms) = pyLower ds ++ pyLowerChar c :: pyLower ms := by
      simp [pyLower]
    rw [h1, pyLower_digits hd, pyLower_digits hm]
  have hmatch : matchDMS (pyLower (pyStrip ((String.mk (ds ++ c :: ms)).toList))) =
      some (ds, pyLowerChar c, ms) := by
    rw [show (String.mk (ds ++ c :: ms)).toList = ds ++ c :: ms from rfl,
        hstrip, hlower]
    exact matchDMS_dms ds ms (pyLowerChar c) hds hms hd hm hlc
  rw [parse_coordinate]
  rw [hmatch]
  dsimp only
  simp only [Bool.or_eq_true, decide_eq_true_eq]

/-- C5 amended: for every coordinate string made of a digit group, a
direction letter in n, s, e, w of either case, and a digit group —
fractional parts are not accepted by the regex of the code, unlike the
claimed form — `parse_coordinate` returns degrees + minutes/60, negated
for the directions s and w; a numeric input is returned unchanged; and
the result for 32n43 agrees with the decimal input 32.71667 within
0.01. -/
theorem parse_coordinate_dms_behavior (ds ms : List Char) (c : Char)
    (hds : ds ≠ []) (hms : ms ≠ [])
    (hd : ∀ x ∈ ds, pyIsDigit x = true) (hm : ∀ x ∈ ms, pyIsDigit x = true)
    (hc : c ∈ (['n', 's', 'e', 'w', 'N', 'S', 'E', 'W'] : List Char)) :
    parse_coordinate (.str (String.mk (ds ++ c :: ms))) =
      .ok (.finite (if pyLowerChar c = 's' ∨ pyLowerChar c = 'w'
           then -(digitsValQ ds + digitsValQ ms / 60)
           else digitsValQ ds + digitsValQ ms / 60)) ∧
    (∀ q : ℚ, parse_coordinate (.num q) = .ok (.finite q)) ∧
    (∃ a b : ℚ, parse_coordinate (.str "32n43") = .ok (.finite a) ∧
      parse_coordinate (.num (32.71667 : ℚ)) = .ok (.finite b) ∧ |a - b| ≤ 1 / 100) := by
  refine ⟨parse_coordinate_dms_eq ds ms c hds hms hd hm hc, fun q => rfl, ?_⟩
  have h32 : parse_coordinate (.str "32n43") =
      .ok (.finite (digitsValQ ['3', '2'] + digitsValQ ['4', '3'] / 60)) := by
    have h := parse_coordinate_dms_eq ['3', '2'] ['4', '3'] 'n'
      (by decide) (by decide) (by decide) (by decide) (by decide)
    rw [show String.mk (['3', '2'] ++ 'n' :: ['4', '3']) = "32n43" from rfl] at h
    rw [h, if_neg (by decide)]
  refine ⟨digitsValQ ['3', '2'] + digitsValQ ['4', '3'] / 60, 32.71667, h32, rfl, ?_⟩
  rw [digitsValQ, digitsValQ,
      show digitsValN ['3', '2'] = 32 from by decide,
      show digitsValN ['4', '3'] = 43 from by decide]
  rw [abs_le]
  constructor <;> norm_num

/-- C5 witness: the string 32n43 parses to 32 + 43/60, a number passes
through, and the 32n43 example agrees with 32.71667 within 0.01. -/
theorem parse_coordinate_dms_behavior_witness :
    parse_coordinate (.str (String.mk (['3', '2'] ++ 'n' :: ['4', '3']))) =
      .ok (.finite (if pyLowerChar 'n' = 's' ∨ pyLowerChar 'n' = 'w'
           then -(digitsValQ ['3', '2'] + digitsValQ ['4', '3'] / 60)
           else digitsValQ ['3', '2'] + digitsValQ ['4', '3'] / 60)) ∧
    (∀ q : ℚ, parse_coordinate (.num q) = .ok (.finite q)) ∧
    (∃ a b : ℚ, parse_coordinate (.str "32n43") = .ok (.finite a) ∧
      parse_coordinate (.num (32.71667 : ℚ)) = .ok (.finite b) ∧ |a - b| ≤ 1 / 100) :=
  parse_coordinate_dms_behavior ['3', '2'] ['4', '3'] 'n'
    (by decide) (by decide) (by decide) (by decide) (by decide)

/-- C5 counterexample: the claimed form allows a fractional degree
group, but the input 32.5n43 — which the claim says parses to
32.5 + 43/60 — raises `ValidationError`, because the regex of the code
accepts only plain digit groups and the string is not a float literal
either. -/
theorem parse_coordinate_fractional_counterexample :
    parse_coordinate (.str "32.5n43") =
      .error (.validationError ("Invalid coordinate format: 32.5n43")) := by decide

end Immanuel
